import Mathlib

/-!
# Verification of the `goes` event-store connection layer

Shallow embedding of `src/eventstore/connection.go` (package `goes`).

The file models the connection layer: configuration validation
(`NewEventStoreConnection`), the bounded reconnection loop
(`connectWithRetries` / `connect`), connection teardown (`Close` /
`closeConnection`), the reader loop's per-frame dispatch (the `switch`
body of `readFromSocket`), its end-of-stream branch, and the send
primitive (`sendPackage`).

External collaborators that live outside `src/` (the binary frame codec
`newPackage`, the `TCPPackage` frame type, the `Subscription` record and
the command-code constants) are modelled from the spec's description of
their interfaces; each such definition carries a doc comment saying so.

Side effects (socket writes, channel sends, goroutine spawns, sleeps,
`log.Fatal`) are made observable as an explicit `Event` trace returned
next to the updated connection state, so that ordering and exactly-once
properties can be stated about them.
-/

/-- Correlation identifiers (`uuid.UUID` in the source), modelled as `Nat`. -/
abbrev UUID := Nat

/-- Identity of a Go channel (`chan<- TCPPackage`), modelled as `Nat`. -/
abbrev ChanId := Nat

/-- Modelled from the spec: the protocol command codes named in
`readFromSocket`'s switch and in `closeConnection` / `sendPackage`.
The constants themselves live in the codec file, outside `src/`;
`0x0F` (bad request) appears literally in `connection.go`. `other`
stands for every remaining command byte (the switch's implicit default). -/
inductive Command
  | heartbeatRequest
  | heartbeatResponse
  | ping
  | pong
  | writeEventsCompleted
  | readEventCompleted
  | deleteStreamCompleted
  | readStreamEventsForwardCompleted
  | readStreamEventsBackwardCompleted
  | subscriptionConfirmation
  | streamEventAppeared
  | createPersistentSubscriptionCompleted
  | persistentSubscriptionConfirmation
  | notAuthenticated
  | subscriptionDropped
  | badRequest
  | other
  deriving DecidableEq, Repr

/-- Modelled from the spec: a frame ("one protocol message unit: command
code + correlation id + payload + optional credentials"); the concrete
`TCPPackage` struct lives in the codec file, outside `src/`. -/
structure TCPPackage where
  command : Command
  correlationID : UUID
  payload : List Nat
  login : String
  password : String
  deriving DecidableEq, Repr

/-- Go's zero value for `TCPPackage` (what `pkg` holds after
`pkg, err := newPackage(...)` fails). -/
def TCPPackage.zero : TCPPackage :=
  { command := .other, correlationID := 0, payload := [], login := "", password := "" }

/-- Modelled from the spec: a subscription is "correlation id + delivery
channel"; the concrete `Subscription` struct lives outside `src/`. -/
structure Subscription where
  correlationID : UUID
  channel : ChanId
  deriving DecidableEq, Repr

/-- Struct `Configuration` from `connection.go` (lines 17-26). The
`EndpointDiscoverer` interface value is modelled as an optional
deterministic discovery outcome: `none` is Go's `nil` interface,
`some r` a discoverer whose `Discover()` returns `r`. -/
structure Configuration where
  address : String
  port : Int
  login : String
  password : String
  reconnectionDelay : Int
  maxReconnects : Int
  maxOperationRetries : Int
  discoverer : Option (Except String (String × Int))
  deriving Repr

/-- Struct `EventStoreConnection` from `connection.go` (lines 29-37):
the configuration, the socket handle (modelled as presence only), the
`connected` flag, the requests table and the subscriptions table.
Tables are association lists keyed by correlation id, mirroring the Go
maps. -/
structure ConnState where
  config : Configuration
  connected : Bool
  hasSocket : Bool
  requests : List (UUID × ChanId)
  subscriptions : List Subscription
  deriving Repr

/-- Environment for the network: `dialOK k` tells whether the `k`-th
resolve-and-dial attempt (counted from 0 over one retry cycle)
succeeds. -/
structure NetEnv where
  dialOK : Nat → Bool

/-- Observable side effects of the connection layer, in program order.
`asyncSend pkg` is the spawn of `go sendPackage(pkg, ...)` (the send is
performed on a separate concurrent task); `register` is the assignment
`connection.requests[correlationID] = channel`; `deliver ch pkg` is a
channel send `ch <- pkg`; `logFatal` is a `log.Fatal*` call, which
terminates the process. -/
inductive Event
  | discover
  | dial (k : Nat)
  | startReader
  | sleep (ms : Int)
  | deliver (ch : ChanId) (pkg : TCPPackage)
  | register (id : UUID) (ch : ChanId)
  | write (pkg : TCPPackage)
  | asyncSend (pkg : TCPPackage)
  | closeSocket
  | logFatal (msg : String)
  deriving DecidableEq, Repr

/-- Modelled from the spec: the external codec's
`encode(command, payload, correlationId, login, password) -> (frame | error)`
(`newPackage` in the source, outside `src/`): it builds a frame carrying
exactly the given command, correlation id, payload and credentials. -/
def newPackage (cmd : Command) (payload : List Nat) (corrId : UUID)
    (login password : String) : Except String TCPPackage :=
  .ok { command := cmd, correlationID := corrId, payload := payload,
        login := login, password := password }

/-- Go's `pkg, err := ...` pattern: on error the result variable holds
the zero value and the code below may still use it. -/
def unwrapGo (r : Except String TCPPackage) : TCPPackage :=
  match r with
  | .ok p => p
  | .error _ => TCPPackage.zero

/-- Modelled from the spec: the opaque protobuf encoding of
`SubscriptionDropped{Reason: Unsubscribed}` produced by `proto.Marshal`
in `closeConnection` (stand-in bytes; the codec is external). -/
def subscriptionDroppedData : List Nat := [8, 0]

/-- Go map read `request, ok := connection.requests[correlationID]`. -/
def lookupRequest (tbl : List (UUID × ChanId)) (id : UUID) : Option ChanId :=
  match tbl with
  | [] => none
  | (k, v) :: rest => if k = id then some v else lookupRequest rest id

/-- Go map write `connection.requests[correlationID] = channel`. -/
def insertRequest (tbl : List (UUID × ChanId)) (id : UUID) (ch : ChanId) :
    List (UUID × ChanId) :=
  match tbl with
  | [] => [(id, ch)]
  | (k, v) :: rest =>
      if k = id then (id, ch) :: rest else (k, v) :: insertRequest rest id ch

/-- Constructor `NewEventStoreConnection` (`connection.go` lines 71-87): validates
address and port only when no endpoint discoverer is configured, then
builds an unconnected connection. -/
def NewEventStoreConnection (config : Configuration) : Except String ConnState :=
  if config.discoverer.isNone then
    if config.address.length = 0 then
      .error "The address cannot be an empty string"
    else if config.port ≤ 0 then
      .error "The port cannot be less or equal to 0"
    else
      .ok { config := config, connected := false, hasSocket := false,
            requests := [], subscriptions := [] }
  else
    .ok { config := config, connected := false, hasSocket := false,
          requests := [], subscriptions := [] }

/-- The drop-notification frame `closeConnection` builds for one
subscription: `newPackage(subscriptionDropped, data, sub.CorrelationID.Bytes(),
connection.Config.Login, connection.Config.Password)`. -/
def dropPkg (cfg : Configuration) (sub : Subscription) : TCPPackage :=
  unwrapGo (newPackage .subscriptionDropped subscriptionDroppedData
    sub.correlationID cfg.login cfg.password)

/-- The deliveries performed by `closeConnection`'s loop: one drop
notification on every tracked subscription's channel. -/
def dropEvents (st : ConnState) : List Event :=
  st.subscriptions.map fun sub => Event.deliver sub.channel (dropPkg st.config sub)

/-- Function `closeConnection` (`connection.go` lines 138-159): deliver one drop
notification on every tracked subscription's channel, then reset both
tables to fresh empty maps. -/
def closeConnection (st : ConnState) : ConnState × List Event :=
  ({ st with requests := [], subscriptions := [] }, dropEvents st)

/-- Method `EventStoreConnection.Close` (`connection.go` lines 56-68): clear
the `connected` flag under the lock, close and drop the socket, then run
`closeConnection`. The socket close outcome is modelled as success. -/
def Close (st : ConnState) : ConnState × List Event × Except String Unit :=
  let st1 := { st with connected := false }
  let st2 := { st1 with hasSocket := false }
  let (st3, evs) := closeConnection st2
  (st3, Event.closeSocket :: evs, .ok ())

/-- Function `connect` (`connection.go` lines 118-136): resolve and dial the
configured address (attempt number `k` in the current retry cycle); on
success install the socket, set `connected`, and spawn the reader loop. -/
def connect (env : NetEnv) (st : ConnState) (k : Nat) :
    ConnState × List Event × Except String Unit :=
  if env.dialOK k then
    ({ st with hasSocket := true, connected := true },
     [Event.dial k, Event.startReader], .ok ())
  else
    (st, [Event.dial k], .error "failed to connect to event store")

/-- The terminal error of `connectWithRetries` when attempts are
exhausted: `failed to reconnect. Retry limit of %v reached` with
`connection.Config.MaxReconnects`. -/
def retryLimitError (maxReconnects : Int) : String :=
  "failed to reconnect. Retry limit of " ++ toString maxReconnects ++ " reached"

/-- One discovery call (`connection.Config.EndpointDiscoverer.Discover()`):
on success it overwrites the configured address and port. -/
def runDiscovery (st : ConnState) : ConnState :=
  match st.config.discoverer with
  | some (.ok (a, p)) => { st with config := { st.config with address := a, port := p } }
  | _ => st

/-- The discovery preamble of `connectWithRetries` (`connection.go`
lines 90-97): with a discoverer configured, run it and overwrite the
configured address and port, or abort on a discovery error; without
one, a no-op. Returns the updated state and the observed events. -/
def discoverStep (st : ConnState) : Except String (ConnState × List Event) :=
  match st.config.discoverer with
  | none => .ok (st, [])
  | some (.ok (a, p)) =>
      .ok ({ st with config := { st.config with address := a, port := p } },
           [Event.discover])
  | some (.error e) => .error e

/-- The body of `connectWithRetries` (`connection.go` lines 89-116) as
structural recursion on `fuel = retryAttempts.toNat`; `k` counts the
dial attempts already made in this cycle. Each level: run discovery if
configured (a discovery error aborts immediately); if attempts remain,
dial once; on failure sleep the reconnection delay, re-run discovery
(its error is ignored), and recurse with one fewer attempt; with no
attempt left, run `closeConnection` and return the terminal error. -/
def connectLoop (env : NetEnv) (st : ConnState) (k : Nat) :
    Nat → ConnState × List Event × Except String Unit
  | fuelLeft + 1 =>
      match discoverStep st with
      | .error e => (st, [Event.discover], .error e)
      | .ok (st0, discEvs) =>
          match connect env st0 k with
          | (st1, evs1, .ok ()) => (st1, discEvs ++ evs1, .ok ())
          | (st1, evs1, .error _) =>
              let sleepEv := Event.sleep st1.config.reconnectionDelay
              let rediscEvs : List Event :=
                if st1.config.discoverer.isSome then [Event.discover] else []
              let st2 := runDiscovery st1
              let (st3, evs2, r) := connectLoop env st2 (k + 1) fuelLeft
              (st3, discEvs ++ evs1 ++ sleepEv :: rediscEvs ++ evs2, r)
  | 0 =>
      match discoverStep st with
      | .error e => (st, [Event.discover], .error e)
      | .ok (st0, discEvs) =>
          let (st1, evs1) := closeConnection st0
          (st1, discEvs ++ evs1, .error (retryLimitError st0.config.maxReconnects))

/-- Function `connectWithRetries(connection, retryAttempts)` (`connection.go`
lines 89-116). The Go function recurses on an `int` guarded by
`retryAttempts > 0`; it is realised here through `connectLoop` on
`retryAttempts.toNat`, which coincides with that recursion (a
non-positive count goes straight to the exhaustion branch). -/
def connectWithRetries (env : NetEnv) (st : ConnState) (retryAttempts : Int) :
    ConnState × List Event × Except String Unit :=
  connectLoop env st 0 retryAttempts.toNat

/-- Method `EventStoreConnection.Connect` (`connection.go` lines 49-53):
reinitialise both tables to fresh empty maps, then run
`connectWithRetries` with `MaxReconnects` attempts. -/
def Connect (env : NetEnv) (st : ConnState) :
    ConnState × List Event × Except String Unit :=
  let st1 := { st with requests := [], subscriptions := [] }
  connectWithRetries env st1 st1.config.maxReconnects

/-- The per-frame dispatch of `readFromSocket` (`connection.go` lines
190-221): the `switch msg.Command` body run on one decoded frame.
`freshId` is the value `uuid.NewV4()` returns in the `pong` branch.
Spawned sends (`go sendPackage(...)`) appear as `asyncSend` events; the
spawned task's own effects happen on that separate task, not here. -/
def readFromSocketStep (st : ConnState) (msg : TCPPackage) (freshId : UUID) :
    ConnState × List Event :=
  match msg.command with
  | .heartbeatRequest =>
      let pkg := unwrapGo (newPackage .heartbeatResponse [] msg.correlationID "" "")
      (st, [Event.asyncSend pkg])
  | .pong =>
      let pkg := unwrapGo (newPackage .ping [] freshId "" "")
      (st, [Event.asyncSend pkg])
  | .writeEventsCompleted | .readEventCompleted | .deleteStreamCompleted
  | .readStreamEventsForwardCompleted | .readStreamEventsBackwardCompleted
  | .subscriptionConfirmation | .streamEventAppeared
  | .createPersistentSubscriptionCompleted | .persistentSubscriptionConfirmation =>
      match lookupRequest st.requests msg.correlationID with
      | some ch => (st, [Event.deliver ch msg])
      | none => (st, [])
  | .notAuthenticated =>
      match lookupRequest st.requests msg.correlationID with
      | some ch => (st, [Event.deliver ch msg])
      | none => (st, [])
  | .badRequest => (st, [Event.logFatal "bad request sent"])
  | _ => (st, [])

/-- The commands of `readFromSocket`'s operation-completed /
subscription-class case (`connection.go` line 207). -/
def isResponseCommand (c : Command) : Bool :=
  match c with
  | .writeEventsCompleted | .readEventCompleted | .deleteStreamCompleted
  | .readStreamEventsForwardCompleted | .readStreamEventsBackwardCompleted
  | .subscriptionConfirmation | .streamEventAppeared
  | .createPersistentSubscriptionCompleted | .persistentSubscriptionConfirmation => true
  | _ => false

/-- The end-of-stream branch of `readFromSocket` (`connection.go` lines
169-184): on `EOF`, call `connection.Close()` and then
`connectWithRetries(connection, connection.Config.MaxReconnects)`. -/
def readFromSocketOnEOF (env : NetEnv) (st : ConnState) :
    ConnState × List Event × Except String Unit :=
  let (st1, evs1, _) := Close st
  let (st2, evs2, r) := connectWithRetries env st1 st1.config.maxReconnects
  (st2, evs1 ++ evs2, r)

/-- Primitive `sendPackage(pkg, connection, channel)` (`connection.go` lines
225-233): register the channel in the requests table under the frame's
correlation id, then write the frame to the socket; a write error is
returned, everything else already happened. `writeResult` is the
outcome of the external `pkg.write(connection)`. -/
def sendPackage (pkg : TCPPackage) (st : ConnState) (ch : ChanId)
    (writeResult : Except String Unit) :
    ConnState × List Event × Except String Unit :=
  let st1 := { st with requests := insertRequest st.requests pkg.correlationID ch }
  match writeResult with
  | .ok () => (st1, [Event.register pkg.correlationID ch, Event.write pkg], .ok ())
  | .error e => (st1, [Event.register pkg.correlationID ch, Event.write pkg], .error e)

/-- Is this event a dial attempt? -/
def Event.isDial (e : Event) : Bool :=
  match e with
  | .dial _ => true
  | _ => false

/-- Is this event a channel delivery? -/
def Event.isDeliver (e : Event) : Bool :=
  match e with
  | .deliver _ _ => true
  | _ => false

/-- Is this event a delivery on channel `ch`? -/
def Event.isDeliverTo (ch : ChanId) (e : Event) : Bool :=
  match e with
  | .deliver c _ => c = ch
  | _ => false

/-- Is this event a `log.Fatal` (process termination)? -/
def Event.isLogFatal (e : Event) : Bool :=
  match e with
  | .logFatal _ => true
  | _ => false

/-- Is this event an asynchronous send spawn? -/
def Event.isAsyncSend (e : Event) : Bool :=
  match e with
  | .asyncSend _ => true
  | _ => false

/-- Is this event the delivery of a subscription-dropped frame for
correlation id `cid`? -/
def Event.isDropDeliveryFor (cid : UUID) (e : Event) : Bool :=
  match e with
  | .deliver _ pkg =>
      decide (pkg.command = Command.subscriptionDropped) && decide (pkg.correlationID = cid)
  | _ => false

/-- Did the call return `.ok`? -/
def exceptIsOk (r : Except String ConnState) : Bool :=
  match r with
  | .ok _ => true
  | .error _ => false

/-! ## Concrete fixtures used by witnesses and counterexamples -/

/-- A concrete configuration: direct endpoint, no discoverer. -/
def cfg0 : Configuration :=
  { address := "127.0.0.1", port := 1113, login := "admin", password := "changeit",
    reconnectionDelay := 10, maxReconnects := 3, maxOperationRetries := 10,
    discoverer := none }

/-- A concrete connected state: one in-flight request (correlation id 5,
channel 77) and one subscription (correlation id 9, channel 42). -/
def st0 : ConnState :=
  { config := cfg0, connected := true, hasSocket := true,
    requests := [(5, 77)], subscriptions := [⟨9, 42⟩] }

/-- A network where every dial succeeds. -/
def env0 : NetEnv := { dialOK := fun _ => true }

/-- A network where every dial fails. -/
def envFail : NetEnv := { dialOK := fun _ => false }

/-- A concrete operation-completed frame matching `st0`'s request. -/
def msg0 : TCPPackage :=
  { command := .writeEventsCompleted, correlationID := 5, payload := [1],
    login := "", password := "" }

/-! ## Helper lemmas -/

/-- A string has length zero exactly when it is the empty string. -/
theorem string_length_eq_zero_iff (s : String) : s.length = 0 ↔ s = "" := by
  constructor
  · intro h
    cases s with
    | mk data =>
      cases data with
      | nil => rfl
      | cons a l => simp [String.length] at h
  · intro h
    subst h
    rfl

/-- After a Go map write, reading the written key returns the written
value. -/
theorem lookupRequest_insertRequest (tbl : List (UUID × ChanId)) (id : UUID)
    (ch : ChanId) : lookupRequest (insertRequest tbl id ch) id = some ch := by
  induction tbl with
  | nil => simp [insertRequest, lookupRequest]
  | cons hd tl ih =>
      obtain ⟨k, v⟩ := hd
      by_cases h : k = id
      · simp [insertRequest, h, lookupRequest]
      · simp [insertRequest, h, lookupRequest, ih]

/-! ## Claims -/

/-- C6: without an endpoint discoverer, `NewEventStoreConnection` fails
exactly when the address is empty or the port is non-positive, and
succeeds on every non-empty address with positive port; with a
discoverer configured it never fails on address/port. -/
theorem newEventStoreConnection_validation (cfg : Configuration) :
    (cfg.discoverer = none →
      (exceptIsOk (NewEventStoreConnection cfg) = false ↔
        (cfg.address = "" ∨ cfg.port ≤ 0))) ∧
    (cfg.discoverer.isSome = true →
      exceptIsOk (NewEventStoreConnection cfg) = true) := by
  constructor
  · intro hd
    unfold NewEventStoreConnection
    rw [hd]
    simp only [Option.isNone_none, if_true]
    by_cases h1 : cfg.address.length = 0
    · have ha : cfg.address = "" := (string_length_eq_zero_iff cfg.address).mp h1
      simp [h1, exceptIsOk, ha]
    · have ha : ¬ cfg.address = "" := by
        intro hcon
        exact h1 ((string_length_eq_zero_iff cfg.address).mpr hcon)
      by_cases h2 : cfg.port ≤ 0
      · simp [h1, h2, exceptIsOk, ha]
      · simp [h1, h2, exceptIsOk, ha]
  · intro hd
    unfold NewEventStoreConnection
    rcases hcase : cfg.discoverer with _ | r
    · rw [hcase] at hd
      simp at hd
    · simp [exceptIsOk]

/-- Witness for C6 at concrete configurations. -/
theorem newEventStoreConnection_validation_witness :
    (cfg0.discoverer = none →
      (exceptIsOk (NewEventStoreConnection cfg0) = false ↔
        (cfg0.address = "" ∨ cfg0.port ≤ 0))) ∧
    (cfg0.discoverer.isSome = true →
      exceptIsOk (NewEventStoreConnection cfg0) = true) :=
  newEventStoreConnection_validation cfg0

/-- C3: in every execution of `sendPackage`, the registration of the
delivery channel under the frame's correlation id comes strictly before
the socket write: the registration is the very first effect, and every
write event in the trace is preceded by it. -/
theorem sendPackage_registers_before_write (pkg : TCPPackage) (st : ConnState)
    (ch : ChanId) (w : Except String Unit) :
    ((sendPackage pkg st ch w).2.1.get? 0 =
      some (Event.register pkg.correlationID ch)) ∧
    (∀ j p, (sendPackage pkg st ch w).2.1.get? j = some (Event.write p) →
      ∃ i, i < j ∧ (sendPackage pkg st ch w).2.1.get? i =
        some (Event.register pkg.correlationID ch)) := by
  cases w with
  | ok u =>
      cases u
      refine ⟨rfl, ?_⟩
      intro j p h
      match j with
      | 0 => simp [sendPackage] at h
      | 1 => exact ⟨0, by omega, rfl⟩
      | n + 2 => simp [sendPackage] at h
  | error e =>
      refine ⟨rfl, ?_⟩
      intro j p h
      match j with
      | 0 => simp [sendPackage] at h
      | 1 => exact ⟨0, by omega, rfl⟩
      | n + 2 => simp [sendPackage] at h

/-- Witness for C3 at a concrete send. -/
theorem sendPackage_registers_before_write_witness :
    ((sendPackage msg0 st0 77 (.ok ())).2.1.get? 0 =
      some (Event.register msg0.correlationID 77)) ∧
    (∀ j p, (sendPackage msg0 st0 77 (.ok ())).2.1.get? j = some (Event.write p) →
      ∃ i, i < j ∧ (sendPackage msg0 st0 77 (.ok ())).2.1.get? i =
        some (Event.register msg0.correlationID 77)) :=
  sendPackage_registers_before_write msg0 st0 77 (.ok ())

/-- C10: when the socket write inside `sendPackage` fails, the error is
returned to the caller but the registration made under the frame's
correlation id stays in the requests table. -/
theorem sendPackage_error_keeps_registration (pkg : TCPPackage) (st : ConnState)
    (ch : ChanId) (e : String) :
    (sendPackage pkg st ch (.error e)).2.2 = .error e ∧
    lookupRequest (sendPackage pkg st ch (.error e)).1.requests
      pkg.correlationID = some ch := by
  refine ⟨rfl, ?_⟩
  simp only [sendPackage]
  exact lookupRequest_insertRequest st.requests pkg.correlationID ch

/-- The heartbeat-response frame the reader builds for a request with
correlation id `cid`: `newPackage(heartbeatResponse, nil, msg.CorrelationID, "", "")`. -/
def heartbeatResponsePkg (cid : UUID) : TCPPackage :=
  { command := .heartbeatResponse, correlationID := cid, payload := [],
    login := "", password := "" }

/-- The fresh ping frame the reader builds after a pong:
`newPackage(ping, nil, uuid.NewV4().Bytes(), "", "")`. -/
def pingPkg (cid : UUID) : TCPPackage :=
  { command := .ping, correlationID := cid, payload := [], login := "", password := "" }

/-- A concrete inbound heartbeat request. -/
def hbReqMsg : TCPPackage :=
  { command := .heartbeatRequest, correlationID := 13, payload := [],
    login := "", password := "" }

/-- A concrete inbound pong. -/
def pongMsg : TCPPackage :=
  { command := .pong, correlationID := 5, payload := [], login := "", password := "" }

/-- C1: dispatch of an operation-completed or subscription-class frame:
a matching registration receives the frame exactly once on its channel;
an unmatched correlation id drops the frame silently — the trace holds
no delivery and no `log.Fatal` (the only panic-like effect). -/
theorem readFromSocketStep_dispatch (st : ConnState) (msg : TCPPackage)
    (freshId : UUID)
    (hc : isResponseCommand msg.command = true ∨
      msg.command = Command.notAuthenticated) :
    (∀ ch, lookupRequest st.requests msg.correlationID = some ch →
      (readFromSocketStep st msg freshId).2 = [Event.deliver ch msg]) ∧
    (lookupRequest st.requests msg.correlationID = none →
      (readFromSocketStep st msg freshId).2 = []) ∧
    ((readFromSocketStep st msg freshId).2.countP Event.isLogFatal = 0) := by
  obtain ⟨c, cid, pl, lg, pw⟩ := msg
  cases c <;>
    first
    | (simp [isResponseCommand] at hc; done)
    | (refine ⟨fun ch h => by simp only at h; simp [readFromSocketStep, h],
        fun h => by simp only at h; simp [readFromSocketStep, h], ?_⟩
       rcases hl : lookupRequest st.requests cid with _ | ch <;>
         simp [readFromSocketStep, hl, Event.isLogFatal])

/-- Witness for C1 at a concrete matched frame and a concrete state. -/
theorem readFromSocketStep_dispatch_witness :
    (∀ ch, lookupRequest st0.requests msg0.correlationID = some ch →
      (readFromSocketStep st0 msg0 0).2 = [Event.deliver ch msg0]) ∧
    (lookupRequest st0.requests msg0.correlationID = none →
      (readFromSocketStep st0 msg0 0).2 = []) ∧
    ((readFromSocketStep st0 msg0 0).2.countP Event.isLogFatal = 0) :=
  readFromSocketStep_dispatch st0 msg0 0 (Or.inl (by decide))

/-- C7: a heartbeat-request frame yields exactly one heartbeat-response
carrying the identical correlation id, and the reply is the spawn of a
separate task (`asyncSend`, i.e. `go sendPackage(...)`), so the reader
loop never blocks on transmitting it. -/
theorem readFromSocketStep_heartbeat (st : ConnState) (msg : TCPPackage)
    (freshId : UUID) (hc : msg.command = Command.heartbeatRequest) :
    (readFromSocketStep st msg freshId).2 =
      [Event.asyncSend (heartbeatResponsePkg msg.correlationID)] ∧
    ((readFromSocketStep st msg freshId).2.countP Event.isAsyncSend = 1) := by
  obtain ⟨c, cid, pl, lg, pw⟩ := msg
  simp only at hc
  subst hc
  constructor
  · simp [readFromSocketStep, newPackage, unwrapGo, heartbeatResponsePkg]
  · simp [readFromSocketStep, newPackage, unwrapGo, Event.isAsyncSend]

/-- Witness for C7 at a concrete heartbeat request. -/
theorem readFromSocketStep_heartbeat_witness :
    (readFromSocketStep st0 hbReqMsg 0).2 =
      [Event.asyncSend (heartbeatResponsePkg hbReqMsg.correlationID)] ∧
    ((readFromSocketStep st0 hbReqMsg 0).2.countP Event.isAsyncSend = 1) :=
  readFromSocketStep_heartbeat st0 hbReqMsg 0 rfl

/-- C8: a pong frame yields exactly one new ping whose correlation id is
the freshly generated uuid, dispatched asynchronously; whenever the
fresh uuid differs from the pong's id (`uuid.NewV4()`), the ping does
not reuse the pong's correlation id. -/
theorem readFromSocketStep_pong (st : ConnState) (msg : TCPPackage)
    (freshId : UUID) (hc : msg.command = Command.pong) :
    (readFromSocketStep st msg freshId).2 =
      [Event.asyncSend (pingPkg freshId)] ∧
    ((readFromSocketStep st msg freshId).2.countP Event.isAsyncSend = 1) ∧
    (freshId ≠ msg.correlationID →
      ∀ pkg, Event.asyncSend pkg ∈ (readFromSocketStep st msg freshId).2 →
        pkg.correlationID ≠ msg.correlationID) := by
  obtain ⟨c, cid, pl, lg, pw⟩ := msg
  simp only at hc
  subst hc
  refine ⟨by simp [readFromSocketStep, newPackage, unwrapGo, pingPkg],
    by simp [readFromSocketStep, newPackage, unwrapGo, Event.isAsyncSend], ?_⟩
  intro hne pkg hmem
  simp [readFromSocketStep, newPackage, unwrapGo] at hmem
  subst hmem
  simpa using hne

/-- Witness for C8 at a concrete pong with a distinct fresh uuid. -/
theorem readFromSocketStep_pong_witness :
    (readFromSocketStep st0 pongMsg 6).2 = [Event.asyncSend (pingPkg 6)] ∧
    ((readFromSocketStep st0 pongMsg 6).2.countP Event.isAsyncSend = 1) ∧
    ((6 : UUID) ≠ pongMsg.correlationID →
      ∀ pkg, Event.asyncSend pkg ∈ (readFromSocketStep st0 pongMsg 6).2 →
        pkg.correlationID ≠ pongMsg.correlationID) :=
  readFromSocketStep_pong st0 pongMsg 6 rfl

/-- The reader loop's dispatch never mutates the connection state: every
branch of the switch returns the state it was given (mutations happen
only in spawned `sendPackage` tasks). -/
theorem readFromSocketStep_state (st : ConnState) (msg : TCPPackage)
    (freshId : UUID) : (readFromSocketStep st msg freshId).1 = st := by
  obtain ⟨c, cid, pl, lg, pw⟩ := msg
  cases c <;> simp only [readFromSocketStep] <;> (try split) <;> rfl

/-- C9: delivering a response frame leaves the requests table unchanged —
the entry for the delivered correlation id survives dispatch — and more
generally no reader-loop dispatch ever removes an entry, so the table
shrinks only through `Connect`, `Close`/`closeConnection`, or retry
exhaustion (which reset it wholesale). -/
theorem readFromSocketStep_keeps_requests (st : ConnState) (msg : TCPPackage)
    (freshId : UUID) (ch : ChanId)
    (hc : isResponseCommand msg.command = true ∨
      msg.command = Command.notAuthenticated)
    (hl : lookupRequest st.requests msg.correlationID = some ch) :
    (readFromSocketStep st msg freshId).2 = [Event.deliver ch msg] ∧
    (readFromSocketStep st msg freshId).1.requests = st.requests ∧
    lookupRequest (readFromSocketStep st msg freshId).1.requests
      msg.correlationID = some ch ∧
    (∀ msg2 fresh2, (readFromSocketStep st msg2 fresh2).1.requests = st.requests) := by
  have hstate : ∀ msg2 fresh2,
      (readFromSocketStep st msg2 fresh2).1.requests = st.requests := by
    intro msg2 fresh2
    rw [readFromSocketStep_state]
  refine ⟨?_, hstate msg freshId, ?_, hstate⟩
  · obtain ⟨c, cid, pl, lg, pw⟩ := msg
    cases c <;>
      first
      | (simp [isResponseCommand] at hc; done)
      | (simp only at hl; simp [readFromSocketStep, hl])
  · rw [hstate msg freshId]
    exact hl

/-- The event trace of one failed reconnection cycle of `N` attempts
starting at attempt index `k`: each attempt dials and then sleeps the
reconnection delay before the next one. -/
def failTrace (d : Int) (k : Nat) : Nat → List Event
  | 0 => []
  | n + 1 => Event.dial k :: Event.sleep d :: failTrace d (k + 1) n

/-- With no discoverer and every dial failing, `connectLoop` performs
one dial-and-sleep round per unit of fuel, then runs `closeConnection`
and reports the terminal retry-limit error, leaving the state with both
tables empty. -/
theorem connectLoop_allFail (env : NetEnv) (st : ConnState)
    (hd : st.config.discoverer = none) (hfail : ∀ k, env.dialOK k = false) :
    ∀ N k, connectLoop env st k N =
      ({ st with requests := [], subscriptions := [] },
       failTrace st.config.reconnectionDelay k N ++ dropEvents st,
       .error (retryLimitError st.config.maxReconnects)) := by
  intro N
  induction N with
  | zero =>
      intro k
      simp [connectLoop, discoverStep, hd, closeConnection, failTrace]
  | succ n ih =>
      intro k
      rw [connectLoop]
      simp only [discoverStep, hd]
      simp only [connect, hfail k]
      simp [runDiscovery, hd, ih (k + 1), failTrace]

/-- The failed-cycle trace holds exactly `N` dial events. -/
theorem failTrace_countP_isDial (d : Int) :
    ∀ N k, (failTrace d k N).countP Event.isDial = N := by
  intro N
  induction N with
  | zero => intro k; simp [failTrace]
  | succ n ih =>
      intro k
      simp [failTrace, List.countP_cons, Event.isDial, ih (k + 1)]

/-- No dial event occurs among the drop notifications. -/
theorem dropEvents_countP_isDial (st : ConnState) :
    (dropEvents st).countP Event.isDial = 0 := by
  simp only [dropEvents, List.countP_map]
  rw [List.countP_eq_zero]
  intro a ha
  simp [Function.comp, Event.isDial]

/-- C2: with `N ≥ 1` remaining attempts and every dial failing,
`connectWithRetries` performs exactly `N` dial attempts with the
configured reconnection delay slept after each failure, then closes the
connection — delivering a drop notification to every tracked
subscription and emptying both tables — and returns the terminal
retry-limit error; each unit of the counter buys exactly one attempt,
so `N` bounds total dial attempts. -/
theorem connectWithRetries_exhaustion (env : NetEnv) (st : ConnState) (N : Nat)
    (hN : 1 ≤ N) (hd : st.config.discoverer = none)
    (hfail : ∀ k, env.dialOK k = false) :
    ((connectWithRetries env st (N : Int)).2.1 =
      failTrace st.config.reconnectionDelay 0 N ++ dropEvents st) ∧
    ((connectWithRetries env st (N : Int)).2.1.countP Event.isDial = N) ∧
    ((connectWithRetries env st (N : Int)).2.2 =
      .error (retryLimitError st.config.maxReconnects)) ∧
    ((connectWithRetries env st (N : Int)).1.requests = []) ∧
    ((connectWithRetries env st (N : Int)).1.subscriptions = []) ∧
    (∀ sub ∈ st.subscriptions,
      Event.deliver sub.channel (dropPkg st.config sub) ∈
        (connectWithRetries env st (N : Int)).2.1) := by
  have hto : ((N : Int)).toNat = N := by simp
  have e1 : connectWithRetries env st (N : Int) =
      ({ st with requests := [], subscriptions := [] },
       failTrace st.config.reconnectionDelay 0 N ++ dropEvents st,
       .error (retryLimitError st.config.maxReconnects)) := by
    rw [connectWithRetries, hto]
    exact connectLoop_allFail env st hd hfail N 0
  rw [e1]
  refine ⟨rfl, ?_, rfl, rfl, rfl, ?_⟩
  · show (failTrace st.config.reconnectionDelay 0 N ++
      dropEvents st).countP Event.isDial = N
    rw [List.countP_append, failTrace_countP_isDial, dropEvents_countP_isDial]
    omega
  · intro sub hsub
    show Event.deliver sub.channel (dropPkg st.config sub) ∈
      failTrace st.config.reconnectionDelay 0 N ++ dropEvents st
    exact List.mem_append_right _ (List.mem_map_of_mem _ hsub)

/-- Witness for C2: two attempts against a network that always refuses,
from a state with one live subscription. -/
theorem connectWithRetries_exhaustion_witness :
    ((connectWithRetries envFail st0 ((2 : Nat) : Int)).2.1 =
      failTrace st0.config.reconnectionDelay 0 2 ++ dropEvents st0) ∧
    ((connectWithRetries envFail st0 ((2 : Nat) : Int)).2.1.countP Event.isDial = 2) ∧
    ((connectWithRetries envFail st0 ((2 : Nat) : Int)).2.2 =
      .error (retryLimitError st0.config.maxReconnects)) ∧
    ((connectWithRetries envFail st0 ((2 : Nat) : Int)).1.requests = []) ∧
    ((connectWithRetries envFail st0 ((2 : Nat) : Int)).1.subscriptions = []) ∧
    (∀ sub ∈ st0.subscriptions,
      Event.deliver sub.channel (dropPkg st0.config sub) ∈
        (connectWithRetries envFail st0 ((2 : Nat) : Int)).2.1) :=
  connectWithRetries_exhaustion envFail st0 2 (by decide) rfl (fun _ => rfl)

/-- Counting drop deliveries for `cid` over the close trace counts the
subscriptions holding correlation id `cid`. -/
theorem dropEvents_countP_isDropDeliveryFor (st : ConnState) (cid : UUID) :
    (dropEvents st).countP (Event.isDropDeliveryFor cid) =
      (st.subscriptions.map Subscription.correlationID).count cid := by
  rw [List.count_eq_countP]
  simp only [dropEvents, List.countP_map]
  apply List.countP_congr
  intro sub hsub
  simp [Event.isDropDeliveryFor, dropPkg, newPackage, unwrapGo, Function.comp]

/-- C4: after `Close`, every subscription tracked at the moment of the
call has received exactly one subscription-dropped frame carrying its
own correlation id and the connection's credentials, and both the
requests table and the subscriptions table are empty. Distinctness of
the tracked correlation ids (a stated invariant of the table) is
assumed. -/
theorem close_drops_every_subscription (st : ConnState)
    (hnd : (st.subscriptions.map Subscription.correlationID).Nodup) :
    (∀ sub ∈ st.subscriptions,
      ((Close st).2.1.countP (Event.isDropDeliveryFor sub.correlationID) = 1) ∧
      Event.deliver sub.channel
          { command := .subscriptionDropped, correlationID := sub.correlationID,
            payload := subscriptionDroppedData, login := st.config.login,
            password := st.config.password } ∈ (Close st).2.1) ∧
    (Close st).1.requests = [] ∧ (Close st).1.subscriptions = [] := by
  have h1 : (Close st).2.1 = Event.closeSocket :: dropEvents st := rfl
  refine ⟨?_, rfl, rfl⟩
  intro sub hsub
  constructor
  · rw [h1, List.countP_cons_of_neg _ _ (by simp [Event.isDropDeliveryFor]),
      dropEvents_countP_isDropDeliveryFor]
    exact List.count_eq_one_of_mem hnd (List.mem_map_of_mem _ hsub)
  · rw [h1]
    refine List.mem_cons_of_mem _ ?_
    have : Event.deliver sub.channel
        { command := .subscriptionDropped, correlationID := sub.correlationID,
          payload := subscriptionDroppedData, login := st.config.login,
          password := st.config.password } = Event.deliver sub.channel (dropPkg st.config sub) := by
      simp [dropPkg, newPackage, unwrapGo]
    rw [this]
    exact List.mem_map_of_mem _ hsub

/-- Witness for C4 at a concrete state with one subscription. -/
theorem close_drops_every_subscription_witness :
    (∀ sub ∈ st0.subscriptions,
      ((Close st0).2.1.countP (Event.isDropDeliveryFor sub.correlationID) = 1) ∧
      Event.deliver sub.channel
          { command := .subscriptionDropped, correlationID := sub.correlationID,
            payload := subscriptionDroppedData, login := st0.config.login,
            password := st0.config.password } ∈ (Close st0).2.1) ∧
    (Close st0).1.requests = [] ∧ (Close st0).1.subscriptions = [] :=
  close_drops_every_subscription st0 (by simp [st0])

/-- A state with one pending request (correlation id 5, channel 77) and
no subscriptions, hit by end-of-stream. -/
def stPend : ConnState :=
  { config := cfg0, connected := true, hasSocket := true,
    requests := [(5, 77)], subscriptions := [] }

/-- C5 counterexample: end-of-stream with a request pending on channel
77 and an immediately successful reconnect. The requests table is reset,
yet the whole close-and-reconnect trace holds no delivery at all — the
pending waiter never completes, with an error or otherwise, contrary to
the claim that it is explicitly failed. -/
theorem readFromSocketOnEOF_pending_never_failed :
    lookupRequest stPend.requests 5 = some 77 ∧
    ((readFromSocketOnEOF env0 stPend).2.1.countP Event.isDeliver = 0) ∧
    (readFromSocketOnEOF env0 stPend).1.requests = [] := by
  refine ⟨rfl, ?_, rfl⟩
  rfl

/-- C5 (amended): on end-of-stream while marked connected, the reader
closes the connection (notifying subscriptions) and runs a full bounded
reconnect cycle; the requests pending at the moment of disconnect are
reset out of the table without their waiters being completed — the only
deliveries in the whole trace are subscription-dropped notifications,
so pending requests are silently discarded, not explicitly failed. -/
theorem readFromSocketOnEOF_reconnect_discards_pending (env : NetEnv)
    (st : ConnState) (hconn : st.connected = true)
    (hd : st.config.discoverer = none) (hmax : 0 < st.config.maxReconnects)
    (hdial : env.dialOK 0 = true) :
    ((readFromSocketOnEOF env st).2.1 =
      (Event.closeSocket :: dropEvents st) ++ [Event.dial 0, Event.startReader]) ∧
    ((readFromSocketOnEOF env st).2.2 = .ok ()) ∧
    ((readFromSocketOnEOF env st).1.connected = true) ∧
    ((readFromSocketOnEOF env st).1.requests = []) ∧
    (∀ ch pkg, Event.deliver ch pkg ∈ (readFromSocketOnEOF env st).2.1 →
      pkg.command = Command.subscriptionDropped) := by
  obtain ⟨m, hm⟩ : ∃ m, st.config.maxReconnects.toNat = m + 1 :=
    ⟨st.config.maxReconnects.toNat - 1, by omega⟩
  have hC : readFromSocketOnEOF env st =
      (let (st1, evs1, _) := Close st
       let (st2, evs2, r) := connectWithRetries env st1 st1.config.maxReconnects
       (st2, evs1 ++ evs2, r)) := rfl
  have hstep : connectWithRetries env
      { st with
          connected := false, hasSocket := false,
          requests := [], subscriptions := [] }
      st.config.maxReconnects =
      ({ st with
           connected := true, hasSocket := true,
           requests := [], subscriptions := [] },
       [Event.dial 0, Event.startReader], .ok ()) := by
    rw [connectWithRetries, hm, connectLoop]
    simp only [discoverStep, hd]
    simp only [connect, hdial]
    simp
  have h1 : (readFromSocketOnEOF env st).2.1 =
      (Event.closeSocket :: dropEvents st) ++ [Event.dial 0, Event.startReader] := by
    rw [hC]
    simp only [Close, closeConnection, hstep]
    rfl
  refine ⟨h1, ?_, ?_, ?_, ?_⟩
  · rw [hC]
    simp only [Close, closeConnection, hstep]
  · rw [hC]
    simp only [Close, closeConnection, hstep]
  · rw [hC]
    simp only [Close, closeConnection, hstep]
  · intro ch pkg hmem
    rw [h1] at hmem
    simp only [List.mem_append, List.mem_cons, dropEvents, List.mem_map] at hmem
    rcases hmem with (h | ⟨sub, hsub, hEq⟩) | h
    · cases h
    · have : pkg = dropPkg st.config sub := by
        cases hEq
        rfl
      rw [this]
      rfl
    · rcases h with h | h
      · cases h
      · rcases h with h | h
        · cases h
        · cases h

/-- Witness for the amended C5 at a concrete state with one pending
request and one subscription. -/
theorem readFromSocketOnEOF_reconnect_discards_pending_witness :
    ((readFromSocketOnEOF env0 st0).2.1 =
      (Event.closeSocket :: dropEvents st0) ++ [Event.dial 0, Event.startReader]) ∧
    ((readFromSocketOnEOF env0 st0).2.2 = .ok ()) ∧
    ((readFromSocketOnEOF env0 st0).1.connected = true) ∧
    ((readFromSocketOnEOF env0 st0).1.requests = []) ∧
    (∀ ch pkg, Event.deliver ch pkg ∈ (readFromSocketOnEOF env0 st0).2.1 →
      pkg.command = Command.subscriptionDropped) :=
  readFromSocketOnEOF_reconnect_discards_pending env0 st0 rfl rfl (by decide) rfl

/-- Witness for C9 at a concrete matched frame. -/
theorem readFromSocketStep_keeps_requests_witness :
    (readFromSocketStep st0 msg0 0).2 = [Event.deliver 77 msg0] ∧
    (readFromSocketStep st0 msg0 0).1.requests = st0.requests ∧
    lookupRequest (readFromSocketStep st0 msg0 0).1.requests
      msg0.correlationID = some 77 ∧
    (∀ msg2 fresh2, (readFromSocketStep st0 msg2 fresh2).1.requests = st0.requests) :=
  readFromSocketStep_keeps_requests st0 msg0 0 77 (Or.inl (by decide)) (by decide)
